import Mathlib

/-!
Verification of the tiered AEO scoring engine (`src/scoring.py`) of
scailetech/openanalytics.

The scoring engine consumes a list of check-result records and produces a
0-100 score gated by three tiers of caps, plus grade / visibility-band
mappers.  Every definition below is a shallow embedding of the corresponding
Python function in `src/scoring.py`; the machine floats of the source are
modelled as exact rationals, Python `dict.get` defaults as `Option.getD`,
and Python's `round(x, 1)` as `roundTo1` below (no claim proved here
depends on a half-way rounding case).
-/

namespace AEO

/-- A check result record as produced by the check functions and consumed by
`scoring.py`.  Fields that the Python code reads with `dict.get` are
modelled as `Option` so that missing keys are representable: `check`
(`issue.get('check')`), `message` (`issue.get('message', '')`), `severity`
(`issue.get('severity')`), `score_impact` (`issue.get('score_impact', 5)`);
`passed` (`issue.get('passed', False)`) is kept as a `Bool`. -/
structure CheckResult where
  check : Option String
  passed : Bool
  message : Option String
  severity : Option String
  score_impact : Option Int
deriving DecidableEq

/-- `startsWithChars needle hay`: `needle` is an initial segment of `hay`. -/
def startsWithChars : List Char → List Char → Bool
  | [], _ => true
  | _ :: _, [] => false
  | a :: as, b :: bs => a == b && startsWithChars as bs

/-- `occursInChars needle hay`: `needle` occurs contiguously in `hay`. -/
def occursInChars : List Char → List Char → Bool
  | needle, [] => startsWithChars needle []
  | needle, b :: bs => startsWithChars needle (b :: bs) || occursInChars needle bs

/-- Python's substring test `needle in hay`. -/
def strContains (hay needle : String) : Bool :=
  occursInChars needle.data hay.data

/-- Python's `str.lower()`; the messages the scoring engine matches on are
ASCII, where `Char.toLower` agrees with Python. -/
def lowerStr (s : String) : String :=
  ⟨s.data.map Char.toLower⟩

/-- The message of a check, with the Python default: `issue.get('message', '')`. -/
def messageOf (r : CheckResult) : String :=
  r.message.getD ""

/-- `ai_crawler_checks` from `evaluate_tier0_critical` (scoring.py line 43). -/
def ai_crawler_checks : List String :=
  ["gptbot_access", "claude_access", "perplexitybot_access", "ccbot_access"]

/-- The filter of the tier-0 loop (scoring.py lines 46-48): an issue is
collected when `issue.get('check') in ai_crawler_checks` and
`not issue.get('passed', False)`. -/
def isBlockedCrawler (r : CheckResult) : Bool :=
  (match r.check with
   | some c => decide (c ∈ ai_crawler_checks)
   | none => false) && !r.passed

/-- `blocked_crawlers` of `evaluate_tier0_critical` (scoring.py lines 44-48):
the `check` fields of all failing AI-crawler issues, multiplicities kept. -/
def blocked_crawlers (issues : List CheckResult) : List (Option String) :=
  (issues.filter isBlockedCrawler).map (fun r => r.check)

/-- The noindex scan of `evaluate_tier0_critical` (scoring.py lines 59-63):
some issue has check `robots_meta`, a lowercased message containing
`noindex`, and is not passed. -/
def hasFailingNoindex (issues : List CheckResult) : Bool :=
  issues.any (fun r =>
    r.check == some "robots_meta" &&
    strContains (lowerStr (messageOf r)) "noindex" && !r.passed)

/-- `evaluate_tier0_critical` (scoring.py lines 32-65). -/
def evaluate_tier0_critical (issues : List CheckResult) : Bool × Int × String :=
  if (blocked_crawlers issues).length ≥ 4 then
    (false, 10, "Blocks all AI crawlers - invisible to AI")
  else if (blocked_crawlers issues).length ≥ 3 then
    (false, 25, "Blocks most AI crawlers (" ++ toString (blocked_crawlers issues).length ++ "/4)")
  else if hasFailingNoindex issues then
    (false, 5, "Has noindex - won't be indexed by AI")
  else
    (true, 100, "AI can access site")

/-- `has_org_schema` of `evaluate_tier1_essential` (scoring.py lines 88-92):
set exactly when some issue named `org_schema_completeness` has a lowercased
message that does not contain `no organization schema`. -/
def has_org_schema (issues : List CheckResult) : Bool :=
  issues.any (fun r =>
    r.check == some "org_schema_completeness" &&
    !(strContains (lowerStr (messageOf r)) "no organization schema"))

/-- `has_title` of `evaluate_tier1_essential` (scoring.py lines 93-97). -/
def has_title (issues : List CheckResult) : Bool :=
  issues.any (fun r =>
    r.check == some "title_tag" &&
    !(strContains (lowerStr (messageOf r)) "missing title"))

/-- `has_https` of `evaluate_tier1_essential` (scoring.py lines 98-99). -/
def has_https (issues : List CheckResult) : Bool :=
  issues.any (fun r => r.check == some "https" && r.passed)

/-- The `missing` list of `evaluate_tier1_essential` (scoring.py lines 101-107). -/
def tier1Missing (issues : List CheckResult) : List String :=
  (if has_org_schema issues then [] else ["Organization schema"]) ++
  (if has_title issues then [] else ["title tag"]) ++
  (if has_https issues then [] else ["HTTPS"])

/-- `evaluate_tier1_essential` (scoring.py lines 68-116). -/
def evaluate_tier1_essential (issues : List CheckResult) : Bool × Int × String :=
  if !(has_org_schema issues) then
    (false, 45, "Missing Organization schema - AI can't identify entity")
  else if !(tier1Missing issues).isEmpty then
    (false, 55, "Missing essentials: " ++ String.intercalate ", " (tier1Missing issues))
  else
    (true, 100, "Has essential elements")

/-- One step of the scan behind `re.search(r'(\d+)%', m)`: `cur = some acc`
while inside a digit run.  Returns the value of the first maximal digit run
that is immediately followed by `'%'`. -/
def findPctAux : Option Nat → List Char → Option Nat
  | _, [] => none
  | cur, c :: cs =>
    if c.isDigit then
      findPctAux (some ((cur.getD 0) * 10 + (c.toNat - 48))) cs
    else if c = '%' then
      match cur with
      | some v => some v
      | none => findPctAux none cs
    else
      findPctAux none cs

/-- `re.search(r'(\d+)%', m)` followed by `int(match.group(1))`: the leftmost
digit run immediately followed by a percent sign, as a number. -/
def findPct (m : String) : Option Nat :=
  findPctAux none m.data

/-- The completeness percentage parsed by `evaluate_tier2_important`
(scoring.py lines 148-151): the message defaults to `'0%'` when falsy
(`message or '0%'`). -/
def completenessOf (r : CheckResult) : Option Nat :=
  findPct (if (messageOf r).isEmpty then "0%" else messageOf r)

/-- `org_partial` of `evaluate_tier2_important` (scoring.py lines 145-147):
an `org_schema_completeness` issue exists whose message does not say
`no organization schema`. -/
def org_partial (issues : List CheckResult) : Bool :=
  issues.any (fun r =>
    r.check == some "org_schema_completeness" &&
    !(strContains (lowerStr (messageOf r)) "no organization schema"))

/-- `org_complete` of `evaluate_tier2_important` (scoring.py lines 148-153):
additionally the parsed percentage is at least 70. -/
def org_complete (issues : List CheckResult) : Bool :=
  issues.any (fun r =>
    r.check == some "org_schema_completeness" &&
    !(strContains (lowerStr (messageOf r)) "no organization schema") &&
    (match completenessOf r with
     | some v => decide (70 ≤ v)
     | none => false))

/-- `has_meta_desc` of `evaluate_tier2_important` (scoring.py lines 154-157). -/
def has_meta_desc (issues : List CheckResult) : Bool :=
  issues.any (fun r =>
    r.check == some "meta_description" &&
    !(strContains (lowerStr (messageOf r)) "missing"))

/-- `good_content` of `evaluate_tier2_important` (scoring.py lines 158-159). -/
def good_content (issues : List CheckResult) : Bool :=
  issues.any (fun r => r.check == some "content_word_count" && r.passed)

/-- `has_sameas` of `evaluate_tier2_important` (scoring.py lines 160-161). -/
def has_sameas (issues : List CheckResult) : Bool :=
  issues.any (fun r => r.check == some "sameas_links" && r.passed)

/-- `critical_issues` of `evaluate_tier2_important` (scoring.py line 166):
never appended to in this version of the source. -/
def tier2Critical (_issues : List CheckResult) : List String :=
  []

/-- `important_issues` of `evaluate_tier2_important` (scoring.py lines 167-174). -/
def tier2Important (issues : List CheckResult) : List String :=
  (if org_partial issues && !(org_complete issues) then
    ["incomplete Organization schema"] else []) ++
  (if has_sameas issues then [] else ["no sameAs links"])

/-- `minor_issues` of `evaluate_tier2_important` (scoring.py lines 168-180). -/
def tier2Minor (issues : List CheckResult) : List String :=
  (if has_meta_desc issues then [] else ["no meta description"]) ++
  (if good_content issues then [] else ["thin content"])

/-- `evaluate_tier2_important` (scoring.py lines 119-194). -/
def evaluate_tier2_important (issues : List CheckResult) : Bool × Int × String :=
  if (tier2Critical issues).length > 0 then
    (false, 70, "Critical: " ++ String.intercalate ", " (tier2Critical issues))
  else if (tier2Important issues).length ≥ 2 then
    (false, 75, "Issues: " ++ String.intercalate ", " (tier2Important issues))
  else if (tier2Important issues).length = 1 then
    (false, 85, "Issue: " ++ (tier2Important issues).headD "")
  else if (tier2Minor issues).length ≥ 2 then
    (false, 90, "Minor issues: " ++ String.intercalate ", " (tier2Minor issues))
  else if (tier2Minor issues).length = 1 then
    (false, 95, "Minor: " ++ (tier2Minor issues).headD "")
  else
    (true, 100, "Excellent AEO optimization")

/-- `issue.get('score_impact', 5)` (scoring.py line 206). -/
def impactOf (r : CheckResult) : Int :=
  r.score_impact.getD 5

/-- The per-issue contribution to `earned_impact` (scoring.py lines 209-215):
full impact when passed, 0.7 of it for a failing notice, 0.3 for a failing
warning, nothing otherwise. -/
def earnedOf (r : CheckResult) : ℚ :=
  if r.passed then (impactOf r : ℚ)
  else if r.severity == some "notice" then (impactOf r : ℚ) * (7/10)
  else if r.severity == some "warning" then (impactOf r : ℚ) * (3/10)
  else 0

/-- `total_impact` of `calculate_base_score` (scoring.py lines 202-207). -/
def total_impact (issues : List CheckResult) : Int :=
  (issues.map impactOf).sum

/-- `earned_impact` of `calculate_base_score` (scoring.py lines 203-215). -/
def earned_impact (issues : List CheckResult) : ℚ :=
  (issues.map earnedOf).sum

/-- `calculate_base_score` (scoring.py lines 197-219). -/
def calculate_base_score (issues : List CheckResult) : ℚ :=
  if 0 < total_impact issues then
    (earned_impact issues / (total_impact issues : ℚ)) * 100
  else 0

/-- Python's `round(x, 1)` on the exact rational value. -/
def roundTo1 (q : ℚ) : ℚ :=
  ((round (10 * q) : ℤ) : ℚ) / 10

/-- The `tier_details` record built by `calculate_tiered_score`
(scoring.py lines 259-266). -/
structure TierDetails where
  tier0 : Bool × Int × String
  tier1 : Bool × Int × String
  tier2 : Bool × Int × String
  base_score : ℚ
  limiting_tier : String
  limiting_reason : String
deriving DecidableEq

/-- The exact (unrounded) minimum of scoring.py line 243. -/
def finalScoreExact (issues : List CheckResult) : ℚ :=
  min ((evaluate_tier0_critical issues).2.1 : ℚ)
    (min ((evaluate_tier1_essential issues).2.1 : ℚ)
      (min ((evaluate_tier2_important issues).2.1 : ℚ) (calculate_base_score issues)))

/-- The limiting-tier attribution of scoring.py lines 246-257. -/
def limitingOf (issues : List CheckResult) : String × String :=
  if ((evaluate_tier0_critical issues).2.1 : ℚ) ≤ finalScoreExact issues + 1 then
    ("tier0", (evaluate_tier0_critical issues).2.2)
  else if ((evaluate_tier1_essential issues).2.1 : ℚ) ≤ finalScoreExact issues + 1 then
    ("tier1", (evaluate_tier1_essential issues).2.2)
  else if ((evaluate_tier2_important issues).2.1 : ℚ) ≤ finalScoreExact issues + 1 then
    ("tier2", (evaluate_tier2_important issues).2.2)
  else
    ("base", "Check performance")

/-- `calculate_tiered_score` (scoring.py lines 222-268). -/
def calculate_tiered_score (issues : List CheckResult) : ℚ × TierDetails :=
  (roundTo1 (finalScoreExact issues),
   { tier0 := evaluate_tier0_critical issues
     tier1 := evaluate_tier1_essential issues
     tier2 := evaluate_tier2_important issues
     base_score := roundTo1 (calculate_base_score issues)
     limiting_tier := (limitingOf issues).1
     limiting_reason := (limitingOf issues).2 })

/-- `calculate_overall_score` (scoring.py lines 271-277). -/
def calculate_overall_score (issues : List CheckResult) : ℚ :=
  (calculate_tiered_score issues).1

/-- `calculate_grade` (scoring.py lines 280-303). -/
def calculate_grade (score : ℚ) : String :=
  if score ≥ 90 then "A+"
  else if score ≥ 80 then "A"
  else if score ≥ 65 then "B"
  else if score ≥ 45 then "C"
  else if score ≥ 25 then "D"
  else "F"

/-- `calculate_visibility_band` (scoring.py lines 306-321). -/
def calculate_visibility_band (score : ℚ) : String × String :=
  if score ≥ 80 then ("Excellent", "#22c55e")
  else if score ≥ 65 then ("Strong", "#84cc16")
  else if score ≥ 45 then ("Moderate", "#eab308")
  else if score ≥ 25 then ("Weak", "#f97316")
  else ("Critical", "#ef4444")

/-- Alternative tier-0 evaluation stated by the spec's order-independence
remark: inspect the failing robots_meta/noindex condition before counting
blocked crawlers (compare with `evaluate_tier0_critical`, which counts
crawlers first and reaches the noindex test only when fewer than 3 are
blocked). -/
def evaluate_tier0_noindex_first (issues : List CheckResult) : Bool × Int × String :=
  if hasFailingNoindex issues then
    (false, 5, "Has noindex - won't be indexed by AI")
  else if (blocked_crawlers issues).length ≥ 4 then
    (false, 10, "Blocks all AI crawlers - invisible to AI")
  else if (blocked_crawlers issues).length ≥ 3 then
    (false, 25, "Blocks most AI crawlers (" ++ toString (blocked_crawlers issues).length ++ "/4)")
  else
    (true, 100, "AI can access site")

end AEO

namespace AEO

/-! ## Helper lemmas -/

theorem roundTo1_mono {a b : ℚ} (h : a ≤ b) : roundTo1 a ≤ roundTo1 b := by
  unfold roundTo1
  have hr : round (10 * a) ≤ round (10 * b) := by
    rw [round_eq, round_eq]
    exact Int.floor_le_floor (by linarith)
  have hc : ((round (10 * a) : ℤ) : ℚ) ≤ ((round (10 * b) : ℤ) : ℚ) := by exact_mod_cast hr
  linarith

theorem roundTo1_intCast (n : ℤ) : roundTo1 ((n : ℤ) : ℚ) = ((n : ℤ) : ℚ) := by
  unfold roundTo1
  have h10 : (10 : ℚ) * (n : ℚ) = ((10 * n : ℤ) : ℚ) := by push_cast; ring
  rw [h10, round_intCast]
  push_cast
  field_simp

theorem tier0_cap_bounds (issues : List CheckResult) :
    0 ≤ (evaluate_tier0_critical issues).2.1 ∧ (evaluate_tier0_critical issues).2.1 ≤ 100 := by
  unfold evaluate_tier0_critical
  split_ifs <;> simp

theorem tier1_cap_bounds (issues : List CheckResult) :
    0 ≤ (evaluate_tier1_essential issues).2.1 ∧ (evaluate_tier1_essential issues).2.1 ≤ 100 := by
  unfold evaluate_tier1_essential
  split_ifs <;> simp

theorem tier2_cap_bounds (issues : List CheckResult) :
    0 ≤ (evaluate_tier2_important issues).2.1 ∧ (evaluate_tier2_important issues).2.1 ≤ 100 := by
  unfold evaluate_tier2_important
  split_ifs <;> simp

theorem earnedOf_nonneg {r : CheckResult} (h : 0 ≤ impactOf r) : 0 ≤ earnedOf r := by
  have hq : (0 : ℚ) ≤ (impactOf r : ℚ) := by exact_mod_cast h
  unfold earnedOf
  split_ifs with h1 h2 h3
  · exact hq
  · nlinarith
  · nlinarith
  · exact le_refl 0

theorem earnedOf_le_impact {r : CheckResult} (h : 0 ≤ impactOf r) :
    earnedOf r ≤ (impactOf r : ℚ) := by
  have hq : (0 : ℚ) ≤ (impactOf r : ℚ) := by exact_mod_cast h
  unfold earnedOf
  split_ifs <;> linarith

theorem total_impact_cast (issues : List CheckResult) :
    ((total_impact issues : ℤ) : ℚ) = (issues.map (fun r => (impactOf r : ℚ))).sum := by
  unfold total_impact
  rw [Int.cast_list_sum, List.map_map]
  rfl

theorem earned_impact_nonneg {issues : List CheckResult}
    (h : ∀ r ∈ issues, 0 ≤ impactOf r) : 0 ≤ earned_impact issues := by
  unfold earned_impact
  apply List.sum_nonneg
  intro x hx
  obtain ⟨r, hr, rfl⟩ := List.mem_map.mp hx
  exact earnedOf_nonneg (h r hr)

theorem earned_le_total {issues : List CheckResult}
    (h : ∀ r ∈ issues, 0 ≤ impactOf r) :
    earned_impact issues ≤ ((total_impact issues : ℤ) : ℚ) := by
  rw [total_impact_cast]
  unfold earned_impact
  exact List.sum_le_sum (fun r hr => earnedOf_le_impact (h r hr))

theorem base_score_bounds {issues : List CheckResult}
    (h : ∀ r ∈ issues, 0 ≤ impactOf r) :
    0 ≤ calculate_base_score issues ∧ calculate_base_score issues ≤ 100 := by
  unfold calculate_base_score
  split_ifs with ht
  · have htQ : (0 : ℚ) < ((total_impact issues : ℤ) : ℚ) := by exact_mod_cast ht
    constructor
    · exact mul_nonneg (div_nonneg (earned_impact_nonneg h) htQ.le) (by norm_num)
    · have hle : earned_impact issues / ((total_impact issues : ℤ) : ℚ) ≤ 1 :=
        (div_le_one htQ).mpr (earned_le_total h)
      nlinarith
  · norm_num

theorem finalScoreExact_bounds {issues : List CheckResult}
    (h : ∀ r ∈ issues, 0 ≤ impactOf r) :
    0 ≤ finalScoreExact issues ∧ finalScoreExact issues ≤ 100 := by
  have h0 := tier0_cap_bounds issues
  have h1 := tier1_cap_bounds issues
  have h2 := tier2_cap_bounds issues
  have hb := base_score_bounds h
  have c0 : (0 : ℚ) ≤ ((evaluate_tier0_critical issues).2.1 : ℚ) := by exact_mod_cast h0.1
  have c1 : (0 : ℚ) ≤ ((evaluate_tier1_essential issues).2.1 : ℚ) := by exact_mod_cast h1.1
  have c2 : (0 : ℚ) ≤ ((evaluate_tier2_important issues).2.1 : ℚ) := by exact_mod_cast h2.1
  have d0 : ((evaluate_tier0_critical issues).2.1 : ℚ) ≤ 100 := by exact_mod_cast h0.2
  constructor
  · exact le_min c0 (le_min c1 (le_min c2 hb.1))
  · exact le_trans (min_le_left _ _) d0

theorem roundTo1_le_int {q : ℚ} {n : ℤ} (h : q ≤ (n : ℚ)) : roundTo1 q ≤ (n : ℚ) :=
  le_of_le_of_eq (roundTo1_mono h) (roundTo1_intCast n)

theorem int_le_roundTo1 {q : ℚ} {n : ℤ} (h : (n : ℚ) ≤ q) : (n : ℚ) ≤ roundTo1 q :=
  le_of_eq_of_le (roundTo1_intCast n).symm (roundTo1_mono h)

theorem final_fst_eq (issues : List CheckResult) :
    (calculate_tiered_score issues).1 = roundTo1 (finalScoreExact issues) := rfl

theorem final_le_tier0_cap (issues : List CheckResult) :
    (calculate_tiered_score issues).1 ≤ ((evaluate_tier0_critical issues).2.1 : ℚ) := by
  rw [final_fst_eq]
  exact roundTo1_le_int (min_le_left _ _)

theorem final_le_tier1_cap (issues : List CheckResult) :
    (calculate_tiered_score issues).1 ≤ ((evaluate_tier1_essential issues).2.1 : ℚ) := by
  rw [final_fst_eq]
  exact roundTo1_le_int ((min_le_right _ _).trans (min_le_left _ _))

theorem blocked_length_eq_countP (issues : List CheckResult) :
    (blocked_crawlers issues).length = issues.countP isBlockedCrawler := by
  unfold blocked_crawlers
  rw [List.length_map, List.countP_eq_length_filter]

theorem mem_blocked_of {issues : List CheckResult} {nm : String} {r : CheckResult}
    (hnm : nm ∈ ai_crawler_checks) (hr : r ∈ issues)
    (hc : r.check = some nm) (hp : r.passed = false) :
    some nm ∈ blocked_crawlers issues := by
  unfold blocked_crawlers
  refine List.mem_map.mpr ⟨r, List.mem_filter.mpr ⟨hr, ?_⟩, hc⟩
  simp [isBlockedCrawler, hc, hp, hnm]

/-! ## Concrete check records used by witnesses and counterexamples -/

/-- A passing HTTPS check. -/
def wHttps : CheckResult := ⟨some "https", true, some "HTTPS enabled", some "pass", some 10⟩

/-- A failing GPTBot access check. -/
def wGpt : CheckResult := ⟨some "gptbot_access", false, some "GPTBot blocked", some "error", some 10⟩

/-- A failing ClaudeBot access check. -/
def wClaude : CheckResult := ⟨some "claude_access", false, some "ClaudeBot blocked", some "error", some 10⟩

/-- A failing PerplexityBot access check. -/
def wPerp : CheckResult := ⟨some "perplexitybot_access", false, some "PerplexityBot blocked", some "error", some 10⟩

/-- A failing CCBot access check. -/
def wCc : CheckResult := ⟨some "ccbot_access", false, some "CCBot blocked", some "error", some 10⟩

/-- A passing content check with a large weight. -/
def wBig : CheckResult := ⟨some "content_word_count", true, some "Good length", some "pass", some 100⟩

/-! ## C1 -/

/-- C1: for every input whose score_impact weights are positive integers,
`calculate_tiered_score` returns the minimum of the three tier caps and the
base score, rounded to one decimal place, and that value lies in [0, 100]. -/
theorem tiered_score_eq_rounded_min_and_bounded (issues : List CheckResult)
    (h : ∀ r ∈ issues, 0 < impactOf r) :
    (calculate_tiered_score issues).1
        = roundTo1 (min ((evaluate_tier0_critical issues).2.1 : ℚ)
            (min ((evaluate_tier1_essential issues).2.1 : ℚ)
              (min ((evaluate_tier2_important issues).2.1 : ℚ) (calculate_base_score issues))))
      ∧ 0 ≤ (calculate_tiered_score issues).1
      ∧ (calculate_tiered_score issues).1 ≤ 100 := by
  have h' : ∀ r ∈ issues, 0 ≤ impactOf r := fun r hr => (h r hr).le
  have hb := finalScoreExact_bounds h'
  refine ⟨rfl, ?_, ?_⟩
  · rw [final_fst_eq]
    have hc : ((0 : ℤ) : ℚ) ≤ finalScoreExact issues := by exact_mod_cast hb.1
    have := int_le_roundTo1 hc
    simpa using this
  · rw [final_fst_eq]
    have hc : finalScoreExact issues ≤ ((100 : ℤ) : ℚ) := by exact_mod_cast hb.2
    have := roundTo1_le_int hc
    simpa using this

/-- C1 witness: the bounds at a concrete one-element input. -/
theorem tiered_score_eq_rounded_min_and_bounded_w :
    0 ≤ (calculate_tiered_score [wHttps]).1 ∧ (calculate_tiered_score [wHttps]).1 ≤ 100 :=
  (tiered_score_eq_rounded_min_and_bounded [wHttps] (by decide)).2

/-! ## C2 -/

/-- C2: when each of the four AI-crawler checks occurs failing in the input,
the tier-0 cap is 10 and the final score is at most 10, whatever else the
input contains. -/
theorem all_crawlers_blocked_caps_score_at_10 (issues : List CheckResult)
    (h : ∀ nm ∈ ai_crawler_checks, ∃ r ∈ issues, r.check = some nm ∧ r.passed = false) :
    (evaluate_tier0_critical issues).2.1 = 10 ∧ (calculate_tiered_score issues).1 ≤ 10 := by
  have hmap : ∀ a ∈ ai_crawler_checks.map some, a ∈ blocked_crawlers issues := by
    intro a ha
    obtain ⟨nm, hnm, rfl⟩ := List.mem_map.mp ha
    obtain ⟨r, hr, hc, hp⟩ := h nm hnm
    exact mem_blocked_of hnm hr hc hp
  have hsp : List.Subperm (ai_crawler_checks.map some) (blocked_crawlers issues) :=
    List.subperm_of_subset (by decide) hmap
  have hlen : 4 ≤ (blocked_crawlers issues).length := by
    have hl := hsp.length_le
    simpa using hl
  have hcap : evaluate_tier0_critical issues = (false, 10, "Blocks all AI crawlers - invisible to AI") := by
    unfold evaluate_tier0_critical
    rw [if_pos hlen]
  refine ⟨by rw [hcap], ?_⟩
  have hf := final_le_tier0_cap issues
  rw [hcap] at hf
  simpa using hf

/-- C2 witness: all four crawler checks failing plus a heavy passing check. -/
theorem all_crawlers_blocked_caps_score_at_10_w :
    (evaluate_tier0_critical [wGpt, wClaude, wPerp, wCc, wBig]).2.1 = 10 ∧
    (calculate_tiered_score [wGpt, wClaude, wPerp, wCc, wBig]).1 ≤ 10 :=
  all_crawlers_blocked_caps_score_at_10 [wGpt, wClaude, wPerp, wCc, wBig] (by decide)

/-! ## C10 -/

/-- C10: the tier-0 tally counts failing list entries with multiplicity, not
distinct crawler identifiers; whenever that count reaches 4 the tier-0
result is the cap of 10 with the all-crawlers reason. -/
theorem blocked_tally_counts_entries (issues : List CheckResult)
    (h : 4 ≤ issues.countP isBlockedCrawler) :
    (blocked_crawlers issues).length = issues.countP isBlockedCrawler ∧
    evaluate_tier0_critical issues = (false, 10, "Blocks all AI crawlers - invisible to AI") := by
  have hlen := blocked_length_eq_countP issues
  refine ⟨hlen, ?_⟩
  have hc : (blocked_crawlers issues).length ≥ 4 := by rw [hlen]; exact h
  unfold evaluate_tier0_critical
  rw [if_pos hc]

/-- C10 witness: four failing copies of the same gptbot_access check reach
the count of 4 and the cap of 10, though only one distinct crawler occurs. -/
theorem blocked_tally_counts_entries_w :
    (blocked_crawlers [wGpt, wGpt, wGpt, wGpt]).length
        = [wGpt, wGpt, wGpt, wGpt].countP isBlockedCrawler ∧
    evaluate_tier0_critical [wGpt, wGpt, wGpt, wGpt]
        = (false, 10, "Blocks all AI crawlers - invisible to AI") :=
  blocked_tally_counts_entries [wGpt, wGpt, wGpt, wGpt] (by decide)

/-! ## C4 -/

theorem perm_any {α : Type} {l l' : List α} (h : l.Perm l') (p : α → Bool) :
    l.any p = l'.any p := by
  cases ha : l'.any p
  · rw [List.any_eq_false] at ha ⊢
    intro x hx
    exact ha x (h.mem_iff.mp hx)
  · rw [List.any_eq_true] at ha ⊢
    obtain ⟨x, hx, hpx⟩ := ha
    exact ⟨x, h.mem_iff.mpr hx, hpx⟩

theorem evaluate_tier0_perm {l l' : List CheckResult} (h : l.Perm l') :
    evaluate_tier0_critical l = evaluate_tier0_critical l' := by
  have hlen : (blocked_crawlers l).length = (blocked_crawlers l').length := by
    rw [blocked_length_eq_countP, blocked_length_eq_countP]
    exact h.countP_eq _
  have hni : hasFailingNoindex l = hasFailingNoindex l' := perm_any h _
  unfold evaluate_tier0_critical
  rw [hlen, hni]

theorem evaluate_tier1_perm {l l' : List CheckResult} (h : l.Perm l') :
    evaluate_tier1_essential l = evaluate_tier1_essential l' := by
  have h1 : has_org_schema l = has_org_schema l' := perm_any h _
  have h2 : has_title l = has_title l' := perm_any h _
  have h3 : has_https l = has_https l' := perm_any h _
  unfold evaluate_tier1_essential tier1Missing
  rw [h1, h2, h3]

theorem evaluate_tier2_perm {l l' : List CheckResult} (h : l.Perm l') :
    evaluate_tier2_important l = evaluate_tier2_important l' := by
  have h1 : org_partial l = org_partial l' := perm_any h _
  have h2 : org_complete l = org_complete l' := perm_any h _
  have h3 : has_meta_desc l = has_meta_desc l' := perm_any h _
  have h4 : good_content l = good_content l' := perm_any h _
  have h5 : has_sameas l = has_sameas l' := perm_any h _
  unfold evaluate_tier2_important tier2Important tier2Minor tier2Critical
  rw [h1, h2, h3, h4, h5]

theorem base_score_perm {l l' : List CheckResult} (h : l.Perm l') :
    calculate_base_score l = calculate_base_score l' := by
  have ht : total_impact l = total_impact l' := by
    unfold total_impact
    exact (h.map impactOf).sum_eq
  have he : earned_impact l = earned_impact l' := by
    unfold earned_impact
    exact (h.map earnedOf).sum_eq
  unfold calculate_base_score
  rw [ht, he]

/-- C4: scoring is permutation-invariant and deterministic: on any
permutation of the input, `calculate_tiered_score` returns the same score
and the same tier-details record, and repeated calls agree trivially. -/
theorem tiered_score_perm_invariant (l l' : List CheckResult) (h : l.Perm l') :
    calculate_tiered_score l' = calculate_tiered_score l ∧
    calculate_tiered_score l = calculate_tiered_score l := by
  refine ⟨?_, rfl⟩
  have h0 := evaluate_tier0_perm h
  have h1 := evaluate_tier1_perm h
  have h2 := evaluate_tier2_perm h
  have hb := base_score_perm h
  have hfse : finalScoreExact l = finalScoreExact l' := by
    unfold finalScoreExact
    rw [h0, h1, h2, hb]
  unfold calculate_tiered_score limitingOf
  rw [hfse, h0, h1, h2, hb]

/-- C4 witness: a concrete two-element swap. -/
theorem tiered_score_perm_invariant_w :
    calculate_tiered_score [wHttps, wClaude] = calculate_tiered_score [wClaude, wHttps] ∧
    calculate_tiered_score [wClaude, wHttps] = calculate_tiered_score [wClaude, wHttps] :=
  tiered_score_perm_invariant [wClaude, wHttps] [wHttps, wClaude]
    (List.Perm.swap wHttps wClaude [])

/-! ## C3 -/

theorem any_flip_eq (pre post : List CheckResult) (r : CheckResult) (p : CheckResult → Bool)
    (hpr : p { r with passed := true } = p r) :
    (pre ++ { r with passed := true } :: post).any p = (pre ++ r :: post).any p := by
  simp [List.any_append, List.any_cons, hpr]

theorem any_flip_le (pre post : List CheckResult) (r : CheckResult) (p : CheckResult → Bool)
    (hr : p r = false)
    (h : (pre ++ r :: post).any p = true) :
    (pre ++ { r with passed := true } :: post).any p = true := by
  simp only [List.any_append, List.any_cons, Bool.or_eq_true] at h ⊢
  rcases h with h | h | h
  · exact Or.inl h
  · rw [hr] at h
    exact absurd h (by simp)
  · exact Or.inr (Or.inr h)

theorem noindex_flip (pre post : List CheckResult) (r : CheckResult)
    (hnx : hasFailingNoindex (pre ++ r :: post) = false) :
    hasFailingNoindex (pre ++ { r with passed := true } :: post) = false := by
  unfold hasFailingNoindex at hnx ⊢
  rw [List.any_eq_false] at hnx ⊢
  intro x hx
  rcases List.mem_append.mp hx with hx | hx
  · exact hnx x (by simp [hx])
  · rcases List.mem_cons.mp hx with rfl | hx
    · simp
    · exact hnx x (by simp [hx])

theorem countP_flip_le (pre post : List CheckResult) (r : CheckResult) :
    (pre ++ { r with passed := true } :: post).countP isBlockedCrawler
      ≤ (pre ++ r :: post).countP isBlockedCrawler := by
  have hr' : ¬ (isBlockedCrawler { r with passed := true } = true) := by
    simp [isBlockedCrawler]
  rw [List.countP_append, List.countP_append, List.countP_cons_of_neg _ _ hr', List.countP_cons]
  split_ifs <;> omega

theorem tier0_cap_flip_mono (pre post : List CheckResult) (r : CheckResult)
    (hnx : hasFailingNoindex (pre ++ r :: post) = false) :
    (evaluate_tier0_critical (pre ++ r :: post)).2.1
      ≤ (evaluate_tier0_critical (pre ++ { r with passed := true } :: post)).2.1 := by
  have hnx' := noindex_flip pre post r hnx
  have hlen : (blocked_crawlers (pre ++ { r with passed := true } :: post)).length
      ≤ (blocked_crawlers (pre ++ r :: post)).length := by
    rw [blocked_length_eq_countP, blocked_length_eq_countP]
    exact countP_flip_le pre post r
  unfold evaluate_tier0_critical
  rw [hnx, hnx']
  split_ifs <;> simp_all <;> omega

theorem tier1_cap_flip_mono (pre post : List CheckResult) (r : CheckResult)
    (hp : r.passed = false) :
    (evaluate_tier1_essential (pre ++ r :: post)).2.1
      ≤ (evaluate_tier1_essential (pre ++ { r with passed := true } :: post)).2.1 := by
  have hOrg : has_org_schema (pre ++ { r with passed := true } :: post)
      = has_org_schema (pre ++ r :: post) := any_flip_eq pre post r _ rfl
  have hTitle : has_title (pre ++ { r with passed := true } :: post)
      = has_title (pre ++ r :: post) := any_flip_eq pre post r _ rfl
  have hHttps : has_https (pre ++ r :: post) = true →
      has_https (pre ++ { r with passed := true } :: post) = true := by
    intro hh
    exact any_flip_le pre post r _ (by simp [has_https, hp]) hh
  unfold evaluate_tier1_essential tier1Missing
  rw [hOrg, hTitle]
  cases hO : has_org_schema (pre ++ r :: post) <;>
    cases hT : has_title (pre ++ r :: post) <;>
    cases hH : has_https (pre ++ r :: post) <;>
    cases hH' : has_https (pre ++ { r with passed := true } :: post) <;>
    simp_all

theorem tier2_cap_flip_mono (pre post : List CheckResult) (r : CheckResult)
    (hp : r.passed = false) :
    (evaluate_tier2_important (pre ++ r :: post)).2.1
      ≤ (evaluate_tier2_important (pre ++ { r with passed := true } :: post)).2.1 := by
  have hOP : org_partial (pre ++ { r with passed := true } :: post)
      = org_partial (pre ++ r :: post) := any_flip_eq pre post r _ rfl
  have hOC : org_complete (pre ++ { r with passed := true } :: post)
      = org_complete (pre ++ r :: post) := any_flip_eq pre post r _ rfl
  have hMD : has_meta_desc (pre ++ { r with passed := true } :: post)
      = has_meta_desc (pre ++ r :: post) := any_flip_eq pre post r _ rfl
  have hGC : good_content (pre ++ r :: post) = true →
      good_content (pre ++ { r with passed := true } :: post) = true := by
    intro hh
    exact any_flip_le pre post r _ (by simp [good_content, hp]) hh
  have hSA : has_sameas (pre ++ r :: post) = true →
      has_sameas (pre ++ { r with passed := true } :: post) = true := by
    intro hh
    exact any_flip_le pre post r _ (by simp [has_sameas, hp]) hh
  have hI : (tier2Important (pre ++ { r with passed := true } :: post)).length
      ≤ (tier2Important (pre ++ r :: post)).length := by
    unfold tier2Important
    rw [hOP, hOC]
    cases hS : has_sameas (pre ++ r :: post) <;>
      cases hS' : has_sameas (pre ++ { r with passed := true } :: post) <;>
      simp_all
  have hM : (tier2Minor (pre ++ { r with passed := true } :: post)).length
      ≤ (tier2Minor (pre ++ r :: post)).length := by
    unfold tier2Minor
    rw [hMD]
    cases hG : good_content (pre ++ r :: post) <;>
      cases hG' : good_content (pre ++ { r with passed := true } :: post) <;>
      simp_all
  unfold evaluate_tier2_important tier2Critical
  split_ifs <;> simp_all <;> omega

theorem base_score_flip_mono (pre post : List CheckResult) (r : CheckResult)
    (himp : ∀ x ∈ pre ++ r :: post, 0 ≤ impactOf x) :
    calculate_base_score (pre ++ r :: post)
      ≤ calculate_base_score (pre ++ { r with passed := true } :: post) := by
  have hrimp : 0 ≤ impactOf r := himp r (by simp)
  have ht : total_impact (pre ++ { r with passed := true } :: post)
      = total_impact (pre ++ r :: post) := by
    unfold total_impact
    simp [List.map_append, impactOf]
  have he : earned_impact (pre ++ r :: post)
      ≤ earned_impact (pre ++ { r with passed := true } :: post) := by
    unfold earned_impact
    simp only [List.map_append, List.sum_append, List.map_cons, List.sum_cons]
    have hre : earnedOf { r with passed := true } = (impactOf r : ℚ) := by
      unfold earnedOf
      simp [impactOf]
    have hrle : earnedOf r ≤ earnedOf { r with passed := true } := by
      rw [hre]
      exact earnedOf_le_impact hrimp
    linarith
  unfold calculate_base_score
  rw [ht]
  split_ifs with h
  · have htQ : (0 : ℚ) < ((total_impact (pre ++ r :: post) : ℤ) : ℚ) := by exact_mod_cast h
    exact mul_le_mul_of_nonneg_right ((div_le_div_iff_of_pos_right htQ).mpr he) (by norm_num)
  · exact le_refl 0

/-- Concrete records for the monotonicity counterexample: three failing
crawler checks, a failing noindex robots_meta check, one strong passing
check. -/
def xGpt : CheckResult := ⟨some "gptbot_access", false, some "", some "error", some 1⟩

/-- The same gptbot_access check with `passed` flipped to true and every
other field unchanged. -/
def xGptP : CheckResult := ⟨some "gptbot_access", true, some "", some "error", some 1⟩

/-- A failing claude_access check. -/
def xClaude : CheckResult := ⟨some "claude_access", false, some "", some "error", some 1⟩

/-- A failing perplexitybot_access check. -/
def xPerp : CheckResult := ⟨some "perplexitybot_access", false, some "", some "error", some 1⟩

/-- A failing robots_meta check whose message mentions noindex. -/
def xNoidx : CheckResult := ⟨some "robots_meta", false, some "Has NoIndex directive", some "error", some 1⟩

/-- A heavy passing check. -/
def xPass : CheckResult := ⟨some "misc_check", true, some "", none, some 16⟩

/-- C3 counterexample: flipping the failing gptbot_access check (all
score_impact values positive, nothing else changed) DROPS the final score
from 25.0 to 5.0, because unblocking the third crawler exposes the noindex
cap of 5 in tier 0.  This refutes the claimed monotonicity. -/
theorem tiered_score_monotonicity_cex :
    xGptP = { xGpt with passed := true } ∧
    (calculate_tiered_score [xGptP, xClaude, xPerp, xNoidx, xPass]).1
      < (calculate_tiered_score [xGpt, xClaude, xPerp, xNoidx, xPass]).1 := by
  refine ⟨rfl, ?_⟩
  have h25 : (calculate_tiered_score [xGpt, xClaude, xPerp, xNoidx, xPass]).1 = 25 := by
    have h0 : (evaluate_tier0_critical [xGpt, xClaude, xPerp, xNoidx, xPass]).2.1 = 25 := by decide
    have h1 : (evaluate_tier1_essential [xGpt, xClaude, xPerp, xNoidx, xPass]).2.1 = 45 := by decide
    have h2 : (evaluate_tier2_important [xGpt, xClaude, xPerp, xNoidx, xPass]).2.1 = 85 := by decide
    have hb : calculate_base_score [xGpt, xClaude, xPerp, xNoidx, xPass] = 80 := by
      simp [calculate_base_score, total_impact, earned_impact, earnedOf, impactOf,
        xGpt, xClaude, xPerp, xNoidx, xPass]
      norm_num
    have hf : finalScoreExact [xGpt, xClaude, xPerp, xNoidx, xPass] = 25 := by
      rw [finalScoreExact, h0, h1, h2, hb]
      norm_num
    rw [final_fst_eq, hf]
    norm_num [roundTo1, round_eq]
  have h5 : (calculate_tiered_score [xGptP, xClaude, xPerp, xNoidx, xPass]).1 = 5 := by
    have h0 : (evaluate_tier0_critical [xGptP, xClaude, xPerp, xNoidx, xPass]).2.1 = 5 := by decide
    have h1 : (evaluate_tier1_essential [xGptP, xClaude, xPerp, xNoidx, xPass]).2.1 = 45 := by decide
    have h2 : (evaluate_tier2_important [xGptP, xClaude, xPerp, xNoidx, xPass]).2.1 = 85 := by decide
    have hb : calculate_base_score [xGptP, xClaude, xPerp, xNoidx, xPass] = 85 := by
      simp [calculate_base_score, total_impact, earned_impact, earnedOf, impactOf,
        xGptP, xClaude, xPerp, xNoidx, xPass]
      norm_num
    have hf : finalScoreExact [xGptP, xClaude, xPerp, xNoidx, xPass] = 5 := by
      rw [finalScoreExact, h0, h1, h2, hb]
      norm_num
    rw [final_fst_eq, hf]
    norm_num [roundTo1, round_eq]
  rw [h25, h5]
  norm_num

/-- C3 amended: flipping a single CheckResult from failed to passed (holding
all of its other fields and the rest of the list fixed) never decreases the
final score, provided the score_impact weights are nonnegative and the list
contains no failing robots_meta/noindex check (the counterexample shows the
noindex proviso is necessary). -/
theorem tiered_score_flip_mono (pre post : List CheckResult) (r : CheckResult)
    (himp : ∀ x ∈ pre ++ r :: post, 0 ≤ impactOf x)
    (hnx : hasFailingNoindex (pre ++ r :: post) = false)
    (hp : r.passed = false) :
    (calculate_tiered_score (pre ++ r :: post)).1
      ≤ (calculate_tiered_score (pre ++ { r with passed := true } :: post)).1 := by
  have h0 := tier0_cap_flip_mono pre post r hnx
  have h1 := tier1_cap_flip_mono pre post r hp
  have h2 := tier2_cap_flip_mono pre post r hp
  have hb := base_score_flip_mono pre post r himp
  rw [final_fst_eq, final_fst_eq]
  apply roundTo1_mono
  unfold finalScoreExact
  have c0 : ((evaluate_tier0_critical (pre ++ r :: post)).2.1 : ℚ)
      ≤ ((evaluate_tier0_critical (pre ++ { r with passed := true } :: post)).2.1 : ℚ) := by
    exact_mod_cast h0
  have c1 : ((evaluate_tier1_essential (pre ++ r :: post)).2.1 : ℚ)
      ≤ ((evaluate_tier1_essential (pre ++ { r with passed := true } :: post)).2.1 : ℚ) := by
    exact_mod_cast h1
  have c2 : ((evaluate_tier2_important (pre ++ r :: post)).2.1 : ℚ)
      ≤ ((evaluate_tier2_important (pre ++ { r with passed := true } :: post)).2.1 : ℚ) := by
    exact_mod_cast h2
  exact min_le_min c0 (min_le_min c1 (min_le_min c2 hb))

/-- C3 amended witness: a concrete flip at the head of a two-element list. -/
theorem tiered_score_flip_mono_w :
    (calculate_tiered_score [wGpt, wBig]).1
      ≤ (calculate_tiered_score [{ wGpt with passed := true }, wBig]).1 :=
  tiered_score_flip_mono [] [wBig] wGpt (by decide) (by decide) (by decide)

/-! ## C5 -/

/-- C5 counterexample: with exactly 3 failing crawler checks and a failing
noindex robots_meta check, the source order yields cap 25 while the
noindex-first order yields cap 5 — the cap value does depend on the
evaluation order. -/
theorem tier0_order_cex :
    (evaluate_tier0_critical [xGpt, xClaude, xPerp, xNoidx]).2.1 = 25 ∧
    (evaluate_tier0_noindex_first [xGpt, xClaude, xPerp, xNoidx]).2.1 = 5 := by
  decide

/-- C5 amended: the two evaluation orders yield the same cap on every input
in which fewer than 3 crawler checks fail or no failing noindex robots_meta
check is present; the counterexample shows they differ when both apply. -/
theorem tier0_order_agrees_outside_overlap (issues : List CheckResult)
    (h : (blocked_crawlers issues).length < 3 ∨ hasFailingNoindex issues = false) :
    (evaluate_tier0_noindex_first issues).2.1 = (evaluate_tier0_critical issues).2.1 := by
  unfold evaluate_tier0_noindex_first evaluate_tier0_critical
  rcases h with h | h
  · split_ifs <;> simp_all <;> omega
  · rw [h]
    split_ifs <;> simp_all

/-- C5 witness: the two orders agree on a single failing noindex check. -/
theorem tier0_order_agrees_outside_overlap_w :
    (evaluate_tier0_noindex_first [xNoidx]).2.1 = (evaluate_tier0_critical [xNoidx]).2.1 :=
  tier0_order_agrees_outside_overlap [xNoidx] (Or.inl (by decide))

/-! ## C6 -/

/-- C6 counterexample: an input with no org_schema_completeness check at all
(here a single passing https check) has `has_org_schema = false` — not true
as claimed — and therefore already receives the tier-1 cap of 45. -/
theorem has_org_schema_default_cex :
    ([wHttps] : List CheckResult).all (fun r => !(r.check == some "org_schema_completeness")) = true ∧
    has_org_schema [wHttps] = false ∧
    (evaluate_tier1_essential [wHttps]).2.1 = 45 := by
  decide

/-- C6 amended: `has_org_schema` is true iff some org_schema_completeness
entry has a message that does not contain the phrase (case-insensitively)
"no organization schema" — in particular it is false when no such check is
present — and whenever it is false the tier-1 cap is 45 and the final score
is at most 45. -/
theorem has_org_schema_iff_and_floor (issues : List CheckResult) :
    (has_org_schema issues = true ↔
      ∃ r ∈ issues, r.check = some "org_schema_completeness" ∧
        strContains (lowerStr (messageOf r)) "no organization schema" = false)
    ∧ (has_org_schema issues = false →
        (evaluate_tier1_essential issues).2.1 = 45 ∧
        (calculate_tiered_score issues).1 ≤ 45) := by
  constructor
  · unfold has_org_schema
    rw [List.any_eq_true]
    constructor
    · rintro ⟨r, hr, hpr⟩
      simp only [Bool.and_eq_true, beq_iff_eq, Bool.not_eq_true'] at hpr
      exact ⟨r, hr, hpr.1, hpr.2⟩
    · rintro ⟨r, hr, h1, h2⟩
      exact ⟨r, hr, by simp [h1, h2]⟩
  · intro h
    have hcap : evaluate_tier1_essential issues
        = (false, 45, "Missing Organization schema - AI can't identify entity") := by
      unfold evaluate_tier1_essential
      simp [h]
    refine ⟨by rw [hcap], ?_⟩
    have hf := final_le_tier1_cap issues
    rw [hcap] at hf
    simpa using hf

/-- C6 witness: the floor applied to the empty input. -/
theorem has_org_schema_iff_and_floor_w :
    (evaluate_tier1_essential ([] : List CheckResult)).2.1 = 45 ∧
    (calculate_tiered_score ([] : List CheckResult)).1 ≤ 45 :=
  (has_org_schema_iff_and_floor []).2 (by decide)

/-! ## C7 -/

theorem earnedOf_eq_spec (r : CheckResult) :
    earnedOf r =
      (if r.passed then (impactOf r : ℚ)
       else if r.severity = some "notice" then 7/10 * (impactOf r : ℚ)
       else if r.severity = some "warning" then 3/10 * (impactOf r : ℚ)
       else 0) := by
  unfold earnedOf
  by_cases h1 : r.passed <;>
    by_cases h2 : r.severity = some "notice" <;>
    by_cases h3 : r.severity = some "warning" <;>
    simp [h1, h2, h3] <;> ring

/-- C7: for nonnegative weights, the base score is 100 × earned / total,
where total sums `score_impact` (missing defaulting to 5) and earned gives
full credit to passed checks, 0.7 to failing notices, 0.3 to failing
warnings, and 0 to failing errors or any other severity, with base score 0
when the total is 0. -/
theorem base_score_formula (issues : List CheckResult)
    (h : ∀ r ∈ issues, 0 ≤ impactOf r) :
    calculate_base_score issues =
      (if (issues.map impactOf).sum = 0 then 0
       else 100 * (issues.map (fun r =>
          if r.passed then (impactOf r : ℚ)
          else if r.severity = some "notice" then 7/10 * (impactOf r : ℚ)
          else if r.severity = some "warning" then 3/10 * (impactOf r : ℚ)
          else 0)).sum / (((issues.map impactOf).sum : ℤ) : ℚ)) := by
  have hmap : issues.map (fun r =>
      if r.passed then (impactOf r : ℚ)
      else if r.severity = some "notice" then 7/10 * (impactOf r : ℚ)
      else if r.severity = some "warning" then 3/10 * (impactOf r : ℚ)
      else 0) = issues.map earnedOf := by
    clear h
    induction issues with
    | nil => rfl
    | cons a t ih => simp only [List.map_cons, ih, (earnedOf_eq_spec a).symm]
  have hS : 0 ≤ (issues.map impactOf).sum := by
    apply List.sum_nonneg
    intro x hx
    obtain ⟨r, hr, rfl⟩ := List.mem_map.mp hx
    exact h r hr
  unfold calculate_base_score total_impact earned_impact
  rw [hmap]
  rcases eq_or_lt_of_le hS with hS0 | hSpos
  · rw [if_neg (by omega), if_pos hS0.symm]
  · rw [if_pos hSpos, if_neg (by omega)]
    ring

/-- C7 witness: the formula at a concrete two-element input. -/
theorem base_score_formula_w :
    calculate_base_score [wHttps, wGpt] =
      (if ([wHttps, wGpt].map impactOf).sum = 0 then 0
       else 100 * ([wHttps, wGpt].map (fun r =>
          if r.passed then (impactOf r : ℚ)
          else if r.severity = some "notice" then 7/10 * (impactOf r : ℚ)
          else if r.severity = some "warning" then 3/10 * (impactOf r : ℚ)
          else 0)).sum / ((([wHttps, wGpt].map impactOf).sum : ℤ) : ℚ)) :=
  base_score_formula [wHttps, wGpt] (by decide)

/-! ## C8 -/

/-- C8 counterexample: on the empty input the tier caps do NOT all default
to 100 — tier 1 caps at 45 and tier 2 at 85. -/
theorem empty_input_caps_cex :
    ¬((evaluate_tier1_essential ([] : List CheckResult)).2.1 = 100) ∧
    ¬((evaluate_tier2_important ([] : List CheckResult)).2.1 = 100) := by
  decide

/-- C8 amended: the empty input is not an error and scores 0: the tier-0
cap is 100 but the tier-1 cap is 45, the tier-2 cap is 85, and the base
score is 0, so the minimum — and the returned final score — is 0. -/
theorem empty_input_scores_zero :
    (calculate_tiered_score ([] : List CheckResult)).1 = 0 ∧
    (evaluate_tier0_critical ([] : List CheckResult)).2.1 = 100 ∧
    (evaluate_tier1_essential ([] : List CheckResult)).2.1 = 45 ∧
    (evaluate_tier2_important ([] : List CheckResult)).2.1 = 85 ∧
    calculate_base_score ([] : List CheckResult) = 0 := by
  have h0 : (evaluate_tier0_critical ([] : List CheckResult)).2.1 = 100 := by decide
  have h1 : (evaluate_tier1_essential ([] : List CheckResult)).2.1 = 45 := by decide
  have h2 : (evaluate_tier2_important ([] : List CheckResult)).2.1 = 85 := by decide
  have hb : calculate_base_score ([] : List CheckResult) = 0 := by
    simp [calculate_base_score, total_impact, earned_impact]
  have hf : finalScoreExact ([] : List CheckResult) = 0 := by
    rw [finalScoreExact, h0, h1, h2, hb]
    norm_num
  refine ⟨?_, h0, h1, h2, hb⟩
  rw [final_fst_eq, hf]
  norm_num [roundTo1, round_eq]

/-! ## C9 -/

/-- C9: the grade and visibility-band ladders, total on all rationals, with
every band boundary inclusive on its lower bound. -/
theorem grade_and_band_thresholds (s : ℚ) :
    (90 ≤ s → calculate_grade s = "A+") ∧
    (80 ≤ s ∧ s < 90 → calculate_grade s = "A") ∧
    (65 ≤ s ∧ s < 80 → calculate_grade s = "B") ∧
    (45 ≤ s ∧ s < 65 → calculate_grade s = "C") ∧
    (25 ≤ s ∧ s < 45 → calculate_grade s = "D") ∧
    (s < 25 → calculate_grade s = "F") ∧
    (80 ≤ s → calculate_visibility_band s = ("Excellent", "#22c55e")) ∧
    (65 ≤ s ∧ s < 80 → calculate_visibility_band s = ("Strong", "#84cc16")) ∧
    (45 ≤ s ∧ s < 65 → calculate_visibility_band s = ("Moderate", "#eab308")) ∧
    (25 ≤ s ∧ s < 45 → calculate_visibility_band s = ("Weak", "#f97316")) ∧
    (s < 25 → calculate_visibility_band s = ("Critical", "#ef4444")) := by
  unfold calculate_grade calculate_visibility_band
  refine ⟨?_, ?_, ?_, ?_, ?_, ?_, ?_, ?_, ?_, ?_, ?_⟩
  · intro h
    rw [if_pos (by linarith)]
  · rintro ⟨h1, h2⟩
    rw [if_neg (by linarith), if_pos (by linarith)]
  · rintro ⟨h1, h2⟩
    rw [if_neg (by linarith), if_neg (by linarith), if_pos (by linarith)]
  · rintro ⟨h1, h2⟩
    rw [if_neg (by linarith), if_neg (by linarith), if_neg (by linarith), if_pos (by linarith)]
  · rintro ⟨h1, h2⟩
    rw [if_neg (by linarith), if_neg (by linarith), if_neg (by linarith), if_neg (by linarith),
      if_pos (by linarith)]
  · intro h
    rw [if_neg (by linarith), if_neg (by linarith), if_neg (by linarith), if_neg (by linarith),
      if_neg (by linarith)]
  · intro h
    rw [if_pos (by linarith)]
  · rintro ⟨h1, h2⟩
    rw [if_neg (by linarith), if_pos (by linarith)]
  · rintro ⟨h1, h2⟩
    rw [if_neg (by linarith), if_neg (by linarith), if_pos (by linarith)]
  · rintro ⟨h1, h2⟩
    rw [if_neg (by linarith), if_neg (by linarith), if_neg (by linarith), if_pos (by linarith)]
  · intro h
    rw [if_neg (by linarith), if_neg (by linarith), if_neg (by linarith), if_neg (by linarith)]

/-- C9 witness: concrete scores, including one outside [0, 100]. -/
theorem grade_and_band_thresholds_w :
    calculate_grade 95 = "A+" ∧ calculate_visibility_band (-3) = ("Critical", "#ef4444") :=
  ⟨(grade_and_band_thresholds 95).1 (by norm_num),
   (grade_and_band_thresholds (-3)).2.2.2.2.2.2.2.2.2.2 (by norm_num)⟩

end AEO
